import Mathlib

/-!
Shallow embedding of the client-side event-dispatch core of `wayland-client`
(`src/wayland-client/src/event_queue.rs`): the queue/handle pair, the
per-object `QueueProxyData` adapter minted by `QueueHandle::make_data`, the
type-erased callback binding, the dispatch loops (`dispatch_pending`,
`blocking_dispatch`, `poll_dispatch_pending`) and the `roundtrip` barrier.

Rust machine-level effects are made explicit:
* a `panic!` / `expect` / `unreachable!` is the `PanicOr.panic` constructor;
* the unbounded mpsc channel backing an `EventQueue` is a `ChannelState`
  (FIFO buffer plus a flag telling whether the receiver is still alive);
* observable side effects of the adapter (child creation, enqueue, the
  log-and-drop path) are recorded as an ordered list of `AdapterAction`s.
-/

set_option autoImplicit false

namespace Wayland

/-- Protocol object identifier. In the wire protocol the id `0` is the null
object; `ObjectId::is_null` in `wayland-backend` tests exactly this. -/
structure ObjectId where
  protocol_id : Nat
deriving DecidableEq, Repr

/-- Mirror of `ObjectId::is_null`. -/
def ObjectId.is_null (o : ObjectId) : Bool :=
  o.protocol_id == 0

/-- Wire argument of a message, mirroring `wayland_backend::protocol::Argument`.
Only the constructor shapes matter for the dispatch core; payloads of the
non-`NewId` variants are never inspected by the code under study. -/
inductive Argument where
  | Int (n : Int)
  | Uint (n : Nat)
  | Fixed (n : Int)
  | Str (s : Option String)
  | Object (id : ObjectId)
  | NewId (id : ObjectId)
  | Array (bytes : List Nat)
  | Fd (fd : Int)
deriving DecidableEq, Repr

/-- Mirror of `wayland_backend::protocol::Message<ObjectId>`. -/
structure Message where
  sender_id : ObjectId
  opcode : Nat
  args : List Argument
deriving DecidableEq, Repr

/-- Event descriptor from interface metadata; only `child_interface`
matters to `make_data` (`desc.child_interface.is_some()`). -/
structure EventDesc where
  name : String
  child_interface : Option String
deriving DecidableEq, Repr

/-- Interface metadata, mirroring the parts of `wayland_backend::Interface`
read by `event_queue.rs`: the name and the event descriptors. -/
structure Interface where
  name : String
  events : List EventDesc
deriving DecidableEq, Repr

/-- Outcome of running a piece of Rust code that may `panic!`: either the
panic diagnostic string, or the value the code returns. -/
inductive PanicOr (α : Type) where
  | panic (diagnostic : String)
  | value (a : α)
deriving DecidableEq, Repr

/-- Unix error numbers used by this core (from the `nix` crate); `EPIPE`
is the one `roundtrip` hard-codes, every other errno is `other`. -/
inductive Errno where
  | EPIPE
  | other (n : Nat)
deriving DecidableEq, Repr

/-- Mirror of `wayland_backend::client::WaylandError`: an I/O error or a
protocol error (the protocol payload is abstracted to its code). -/
inductive WaylandError where
  | io (e : Errno)
  | protocolError (code : Nat)
deriving DecidableEq, Repr

/-- Modelled from the spec: `wayland-client`'s `DispatchError` (declared in
`lib.rs`, which is not part of the sources under study) per section 7 —
a recoverable deserialization failure (`BadMessage`, carrying the message
and the interface name) or a transport failure (`Backend`). -/
inductive DispatchError where
  | badMessage (msg : Message) (interface : String)
  | backend (e : WaylandError)
deriving DecidableEq, Repr

/-- Modelled from the spec: the error of `Connection::send_request`
(in `conn.rs`, not part of the sources under study). `roundtrip` discards
its payload via `map_err`, so only distinguishability between causes
matters; we keep two distinct causes to express "regardless of cause". -/
inductive SendError where
  | invalidId
  | ioFailure (e : Errno)
deriving DecidableEq, Repr

/-- Type-erased user data, mirroring the `&dyn Any` view returned by
`ObjectData::data_as_any`. A Rust `TypeId` is abstracted to a `Nat` tag. -/
structure ErasedAny where
  tyId : Nat
deriving DecidableEq, Repr

/-- Mirror of `<dyn Any>::downcast_ref::<U>`: succeeds exactly when the
erased value's type tag is the statically expected one. -/
def downcast_ref (a : ErasedAny) (expected : Nat) : Option ErasedAny :=
  if a.tyId == expected then some a else none

/-- Model of an `Arc<dyn ObjectData>` as the dispatch core observes it:
its `data_as_any` view. For a minted `QueueProxyData` this is the user
data's type tag; for children returned by `event_created_child` it is the
child's own user-data tag. -/
structure ObjData where
  data_as_any : ErasedAny
deriving DecidableEq, Repr

/-- Callback type `QueueCallback<State>`; the `&Connection` and
`&QueueHandle` parameters are dropped from the model (the embedded
callbacks never let them influence the dispatch-core behaviour studied
here), keeping the message, the state and the erased object data. -/
def QueueCallback (State : Type) : Type :=
  Message → State → ObjData → PanicOr (Except DispatchError State)

/-- Mirror of `struct QueueEvent<State>(QueueCallback, Message, Arc<dyn
ObjectData>)`: one buffered entry of an event queue. -/
structure QueueEvent (State : Type) where
  cb : QueueCallback State
  msg : Message
  odata : ObjData

/-- State of the `futures_channel::mpsc::unbounded` channel backing an
`EventQueue`: the FIFO buffer and whether the receiver (the `EventQueue`
itself) is still alive. `unbounded_send` fails iff the receiver is gone. -/
structure ChannelState (State : Type) where
  buffer : List (QueueEvent State)
  receiverAlive : Bool

/-- Observable side effects of the adapter layer, in program order:
invoking the child-creation function, enqueueing onto the bound queue,
and the log-and-drop path taken when the queue's consumer is gone. -/
inductive AdapterAction where
  | createChild (opcode : Nat)
  | enqueue (opcode : Nat)
  | logDrop (message : String)
deriving DecidableEq, Repr

/-- Mirror of `<QueueSender<State> as ErasedQueueSender<I>>::send`: build a
`QueueEvent` from the sender's callback, the message and the object data,
try a non-blocking `unbounded_send`, and on failure (receiver dropped) log
and drop instead of propagating any error. Returns the updated channel and
the emitted actions, in order. -/
def QueueSender.send {State : Type} (func : QueueCallback State)
    (ch : ChannelState State) (msg : Message) (odata : ObjData) :
    ChannelState State × List AdapterAction :=
  if ch.receiverAlive then
    ({ ch with buffer := ch.buffer ++ [⟨func, msg, odata⟩] },
      [AdapterAction.enqueue msg.opcode])
  else
    (ch, [AdapterAction.logDrop "Event received for EventQueue after it was dropped."])

/-- Static dispatch binding for one (interface, user-data type, state type)
triple: the pieces of `Dispatch<I, U, State>` plus the generated
`I::parse_event` that `queue_callback::<I, U, State>` closes over. The
user-data type `U` is represented by its type tag. `parse_event` is
modelled from the spec (generated per-interface code, not in the sources
under study): it deserializes a raw message into typed form and may fail
recoverably. -/
structure DispatchBinding (State : Type) where
  iface : Interface
  udataTyId : Nat
  parse_event : Message → Except DispatchError Message
  handler : State → Message → State
  event_created_child : Nat → PanicOr ObjData

/-- Diagnostic emitted by the default `Dispatch::event_created_child`
implementation (and by the catch-all arm of the `event_created_child!`
macro): names the opcode and the interface. -/
def missing_child_diag (iface : Interface) (opcode : Nat) : String :=
  "Missing event_created_child specialization for event opcode " ++
    toString opcode ++ " of " ++ iface.name

/-- Mirror of the default body of `Dispatch::event_created_child`: an
unconditional `panic!` naming the opcode and the interface. -/
def event_created_child_default (iface : Interface) (opcode : Nat) :
    PanicOr ObjData :=
  PanicOr.panic (missing_child_diag iface opcode)

/-- Mirror of `queue_callback::<I, U, State>`: parse the raw event via the
interface's `parse_event` (recoverable failure), downcast the erased user
data to `U` (`expect` panics on mismatch), then run the handler. The `I`
type parameter is represented by the interface-specific `parse` and
`handler` closed over here. -/
def queue_callback {State : Type} (expectedTyId : Nat)
    (parse : Message → Except DispatchError Message)
    (handler : State → Message → State) : QueueCallback State :=
  fun msg st odata =>
    match parse msg with
    | Except.error e => PanicOr.value (Except.error e)
    | Except.ok ev =>
      match downcast_ref odata.data_as_any expectedTyId with
      | none => PanicOr.panic "Wrong user_data value for object"
      | some _ => PanicOr.value (Except.ok (handler st ev))

/-- Mirror of the argument scan in `make_data`'s `odata_maker` closure: the
loop returns at the first `Argument::NewId` it meets and skips everything
else. -/
def find_first_new_id : List Argument → Option ObjectId
  | [] => none
  | Argument.NewId id :: _ => some id
  | _ :: rest => find_first_new_id rest

/-- Mirror of the `odata_maker` closure built by `make_data` when the
interface has at least one child-creating event: a null first new-id means
no child, a non-null one invokes `event_created_child` for the message's
opcode (which may panic if unregistered). -/
def odata_maker_creating (ecc : Nat → PanicOr ObjData) (msg : Message) :
    PanicOr (Option ObjData × List AdapterAction) :=
  match find_first_new_id msg.args with
  | none => PanicOr.value (none, [])
  | some id =>
    if id.is_null then PanicOr.value (none, [])
    else
      match ecc msg.opcode with
      | PanicOr.panic s => PanicOr.panic s
      | PanicOr.value od =>
        PanicOr.value (some od, [AdapterAction.createChild msg.opcode])

/-- Mirror of `has_creating_event` in `make_data`:
`I::interface().events.iter().any(|desc| desc.child_interface.is_some())`. -/
def has_creating_event (i : Interface) : Bool :=
  i.events.any fun d => d.child_interface.isSome

/-- Model of the `Arc<QueueProxyData>` produced by `make_data`: the erased
sender callback, the object-data factory, and the user data (as seen
through `data_as_any`). -/
structure QueueProxyData (State : Type) where
  senderFunc : QueueCallback State
  odata_maker : Message → PanicOr (Option ObjData × List AdapterAction)
  udata : ObjData

/-- Mirror of `QueueHandle::make_data::<I, U>`: pair
`queue_callback::<I, U, State>` with the user data of type `U`, and build
the `odata_maker` — the scanning closure when the interface has a
child-creating event, the constant-`None` closure otherwise. -/
def make_data {State : Type} (b : DispatchBinding State) : QueueProxyData State :=
  { senderFunc := queue_callback b.udataTyId b.parse_event b.handler
    odata_maker :=
      if has_creating_event b.iface then odata_maker_creating b.event_created_child
      else fun _ => PanicOr.value (none, [])
    udata := ⟨⟨b.udataTyId⟩⟩ }

/-- Outcome of one `ObjectData::event` invocation on a `QueueProxyData`:
the updated channel, the ordered trace of observable actions, and the
optional child object returned to the backend. -/
structure EventOutcome (State : Type) where
  ch : ChannelState State
  actions : List AdapterAction
  ret : Option ObjData

/-- Mirror of `<QueueProxyData as ObjectData>::event`: first run the
object-data factory (the child-creation decision, which may panic), then
send `(sender.func, msg, self)` to the bound queue, and return the factory
result to the backend. -/
def QueueProxyData.event {State : Type} (pd : QueueProxyData State)
    (ch : ChannelState State) (msg : Message) : PanicOr (EventOutcome State) :=
  match pd.odata_maker msg with
  | PanicOr.panic s => PanicOr.panic s
  | PanicOr.value (ret, acts) =>
    let sent := QueueSender.send pd.senderFunc ch msg pd.udata
    PanicOr.value ⟨sent.1, acts ++ sent.2, ret⟩

/-- Modelled from the spec: the Transport-side context an `EventQueue`
dispatches against. `conn.rs` and `wayland-backend` are not part of the
sources under study, so the three transport operations the queue core
invokes are modelled by their outcomes per sections 6 and 9 of the spec:
`dispatch_inner_queue` (the opportunistic guest-mode pre-queue step)
delivers `innerQueue` entries to this queue and reports `innerError`;
`blocking_dispatch_impl` (flush plus one blocking read cycle) either fails
with a transport error or delivers `readResult` entries to this queue. -/
structure Connection (State : Type) where
  innerQueue : List (QueueEvent State)
  innerError : Option WaylandError
  readResult : Except WaylandError (List (QueueEvent State))

/-- Result of one drain pass over the buffered entries: the final
`Result<usize, DispatchError>` (paired with the resulting state on
success), the entries still queued, and the messages dispatched, in
order. -/
structure DrainOut (State : Type) where
  result : Except DispatchError (State × Nat)
  remaining : List (QueueEvent State)
  processed : List Message

/-- Mirror of the `while let Ok(Some(QueueEvent(cb, msg, odata))) =
rx.try_next()` loop of `dispatching_impl`: run each buffered callback in
FIFO order, stop at the first failure (the `?`), count successes. A
callback failure consumes the failing entry; a callback panic aborts the
whole pass. -/
def drain_loop {State : Type} :
    List (QueueEvent State) → State → Nat → PanicOr (DrainOut State)
  | [], st, n => PanicOr.value ⟨Except.ok (st, n), [], []⟩
  | e :: rest, st, n =>
    match e.cb e.msg st e.odata with
    | PanicOr.panic s => PanicOr.panic s
    | PanicOr.value (Except.error err) =>
      PanicOr.value ⟨Except.error err, rest, []⟩
    | PanicOr.value (Except.ok st') =>
      match drain_loop rest st' (n + 1) with
      | PanicOr.panic s => PanicOr.panic s
      | PanicOr.value out =>
        PanicOr.value ⟨out.result, out.remaining, e.msg :: out.processed⟩

/-- Mirror of `EventQueue::dispatching_impl`: first the opportunistic
`dispatch_inner_queue` call, whose error is deliberately discarded
(`let _ = ...`) and whose delivered entries land at the back of the
channel buffer; then the non-blocking drain loop. -/
def dispatching_impl {State : Type} (conn : Connection State)
    (buffer : List (QueueEvent State)) (st : State) : PanicOr (DrainOut State) :=
  drain_loop (buffer ++ conn.innerQueue) st 0

/-- Mirror of `EventQueue::dispatch_pending`, which forwards to
`dispatching_impl`. -/
def dispatch_pending {State : Type} (conn : Connection State)
    (buffer : List (QueueEvent State)) (st : State) : PanicOr (DrainOut State) :=
  dispatching_impl conn buffer st

/-- Result of `blocking_dispatch`: a drain outcome plus whether the
blocking flush-and-read transport cycle was performed. -/
structure BlockingRun (State : Type) where
  result : Except DispatchError (State × Nat)
  remaining : List (QueueEvent State)
  processed : List Message
  didRead : Bool

/-- Mirror of `EventQueue::blocking_dispatch`: drain; if that dispatched
anything (or failed, via `?`) return immediately without touching the
transport; otherwise perform `blocking_dispatch_impl` (flush plus one
blocking read cycle, modelled by `conn.readResult`) and drain once more.
The second drain sees an emptied inner queue (the first pass consumed
it). -/
def blocking_dispatch {State : Type} (conn : Connection State)
    (buffer : List (QueueEvent State)) (st : State) : PanicOr (BlockingRun State) :=
  match dispatching_impl conn buffer st with
  | PanicOr.panic s => PanicOr.panic s
  | PanicOr.value r1 =>
    match r1.result with
    | Except.error e => PanicOr.value ⟨Except.error e, r1.remaining, r1.processed, false⟩
    | Except.ok (st1, n) =>
      if 0 < n then
        PanicOr.value ⟨Except.ok (st1, n), r1.remaining, r1.processed, false⟩
      else
        match conn.readResult with
        | Except.error e =>
          PanicOr.value ⟨Except.error (DispatchError.backend e),
            r1.remaining, r1.processed, true⟩
        | Except.ok newEntries =>
          match dispatching_impl { conn with innerQueue := [] }
              (r1.remaining ++ newEntries) st1 with
          | PanicOr.panic s => PanicOr.panic s
          | PanicOr.value r2 =>
            PanicOr.value ⟨r2.result, r2.remaining,
              r1.processed ++ r2.processed, true⟩

/-- Mirror of `std::convert::Infallible`: the uninhabited success type of
`poll_dispatch_pending`. -/
inductive Infallible : Type

/-- Mirror of `std::task::Poll`. -/
inductive Poll (α : Type) where
  | pending
  | ready (a : α)

/-- Mirror of the `loop` body of `EventQueue::poll_dispatch_pending` past
the inner-queue check: poll the channel; an empty buffer yields `Pending`
when at least one sender is alive and hits the `unreachable!` otherwise; a
buffered entry is dispatched (`?` turns a callback error into
`Ready(Err)`), then the loop continues. -/
def poll_loop {State : Type} :
    List (QueueEvent State) → Nat → State →
      PanicOr (Poll (Except DispatchError Infallible) × State)
  | [], senders, st =>
    if 0 < senders then PanicOr.value (Poll.pending, st)
    else PanicOr.panic "Got end of stream while holding a valid sender"
  | e :: rest, senders, st =>
    match e.cb e.msg st e.odata with
    | PanicOr.panic s => PanicOr.panic s
    | PanicOr.value (Except.error err) =>
      PanicOr.value (Poll.ready (Except.error err), st)
    | PanicOr.value (Except.ok st') => poll_loop rest senders st'

/-- Mirror of `EventQueue::poll_dispatch_pending`: each loop iteration
first checks `dispatch_inner_queue` — an error there returns
`Ready(Err)` — and its delivered entries land at the back of the buffer;
then the channel is polled as in `poll_loop`. `senders` counts the live
`UnboundedSender` clones; the queue's own `handle.tx` keeps it positive
for the queue's whole lifetime. -/
def poll_dispatch_pending {State : Type} (conn : Connection State)
    (buffer : List (QueueEvent State)) (senders : Nat) (st : State) :
    PanicOr (Poll (Except DispatchError Infallible) × State) :=
  match conn.innerError with
  | some e =>
    PanicOr.value (Poll.ready (Except.error (DispatchError.backend e)), st)
  | none => poll_loop (buffer ++ conn.innerQueue) senders st

/-- Modelled from the spec: the observable outcome of one
`blocking_dispatch` call inside `roundtrip`'s wait loop — the
`Result<usize, DispatchError>` it returned, and whether the `SyncData`
barrier callback (living in `conn.rs`, not in the sources under study)
fired during that call, storing `true` into the shared `done` flag. -/
structure SyncStep where
  result : Except DispatchError Nat
  setsDone : Bool

/-- Number of events a step reports as dispatched (zero on failure). -/
def stepCount (s : SyncStep) : Nat :=
  match s.result with
  | Except.ok n => n
  | Except.error _ => 0

/-- Mirror of `while !done.load(Ordering::Acquire) { dispatched +=
self.blocking_dispatch(data)?; }`: fold over the per-call outcomes,
accumulating the count, propagating the first error, and exiting once the
flag set during a call is observed at the loop head. An exhausted script
with the flag still unset means the loop is still running (`none`). Also
returns how many `blocking_dispatch` calls were made. -/
def roundtrip_loop : List SyncStep → Nat → Nat →
    Option (Except DispatchError Nat) × Nat
  | [], _, calls => (none, calls)
  | s :: rest, acc, calls =>
    match s.result with
    | Except.error e => (some (Except.error e), calls + 1)
    | Except.ok n =>
      if s.setsDone then (some (Except.ok (acc + n)), calls + 1)
      else roundtrip_loop rest (acc + n) (calls + 1)

/-- Observable outcome of `roundtrip`: its return value (or `none` while
the wait loop has not terminated), the number of `blocking_dispatch`
calls made, and the number of `wl_display.sync` requests sent. -/
structure RoundtripRun where
  result : Option (Except DispatchError Nat)
  dispatchCalls : Nat
  syncSends : Nat

/-- Mirror of `EventQueue::roundtrip`: allocate a fresh `done` flag, send
exactly one `wl_display::Request::Sync {}` on the display with the
`SyncData` barrier attached — any send failure is rewritten by `map_err`
into `WaylandError::Io(EPIPE)` and returned before any dispatching — then
run the wait loop over the per-call outcomes. -/
def roundtrip (sendResult : Except SendError Unit) (script : List SyncStep) :
    RoundtripRun :=
  match sendResult with
  | Except.error _ =>
    ⟨some (Except.error (DispatchError.backend (WaylandError.io Errno.EPIPE))), 0, 1⟩
  | Except.ok _ =>
    let r := roundtrip_loop script 0 0
    ⟨r.1, r.2, 1⟩

/-- One producer-side delivery: the sender's callback, the raw message and
the erased object data handed to `ErasedQueueSender::send`. -/
structure SendReq (State : Type) where
  func : QueueCallback State
  msg : Message
  odata : ObjData

/-- Sequential composition of `ErasedQueueSender::send` calls in their
serialization order at the channel (producers on any thread serialize
there). -/
def sendAll {State : Type} : List (SendReq State) → ChannelState State → ChannelState State
  | [], ch => ch
  | d :: rest, ch => sendAll rest (QueueSender.send d.func ch d.msg d.odata).1

/-- The queue entry a delivery becomes once buffered. -/
def SendReq.toEvent {State : Type} (d : SendReq State) : QueueEvent State :=
  ⟨d.func, d.msg, d.odata⟩

/-!
Concrete instances used to evaluate the development on closed inputs:
a data-device-like interface with one child-creating event, a plain
interface without one, bindings, messages, channels and connections over
the state type `Nat`.
-/

/-- Interface with one child-creating event (the `wl_data_device` shape:
its `data_offer` event carries a new id). -/
def iface_dd : Interface :=
  ⟨"wl_data_device", [⟨"data_offer", some "wl_data_offer"⟩, ⟨"enter", none⟩]⟩

/-- Interface without any child-creating event. -/
def iface_plain : Interface :=
  ⟨"wl_surface", [⟨"enter", none⟩, ⟨"leave", none⟩]⟩

/-- Parser that always succeeds, returning the raw message as the typed
event. -/
def parse_ok : Message → Except DispatchError Message :=
  fun m => Except.ok m

/-- Handler over `State := Nat` that counts handled events. -/
def handler_inc : Nat → Message → Nat :=
  fun n _ => n + 1

/-- Child object data returned by the registered child-creation
function. -/
def child_obj : ObjData := ⟨⟨7⟩⟩

/-- Binding whose `event_created_child` is the trait default (panics). -/
def b_default : DispatchBinding Nat :=
  ⟨iface_dd, 3, parse_ok, handler_inc, event_created_child_default iface_dd⟩

/-- Binding with a registered child-creation function. -/
def b_registered : DispatchBinding Nat :=
  ⟨iface_dd, 3, parse_ok, handler_inc, fun _ => PanicOr.value child_obj⟩

/-- Message without any new-object-id argument. -/
def msg_plain : Message := ⟨⟨4⟩, 2, [Argument.Uint 9]⟩

/-- Message whose first new-object-id argument is null. -/
def msg_null_new : Message := ⟨⟨4⟩, 0, [Argument.Uint 1, Argument.NewId ⟨0⟩]⟩

/-- Message with a non-null new-object-id argument. -/
def msg_new : Message := ⟨⟨4⟩, 0, [Argument.NewId ⟨5⟩, Argument.Str none]⟩

/-- Empty channel whose consumer is alive. -/
def ch_alive : ChannelState Nat := ⟨[], true⟩

/-- Empty channel whose consumer has been dropped. -/
def ch_dead : ChannelState Nat := ⟨[], false⟩

/-- Buffered entry whose callback succeeds, bumping the counter state. -/
def ok_event : QueueEvent Nat :=
  ⟨fun _ n _ => PanicOr.value (Except.ok (n + 1)), msg_plain, ⟨⟨3⟩⟩⟩

/-- Buffered entry whose callback fails recoverably (deserialization
failure). -/
def err_event : QueueEvent Nat :=
  ⟨fun m _ _ => PanicOr.value (Except.error (DispatchError.badMessage m "wl_data_device")),
    msg_null_new, ⟨⟨3⟩⟩⟩

/-- Transport context with nothing pending and a read cycle that would
succeed delivering nothing. -/
def conn_idle : Connection Nat := ⟨[], none, Except.ok []⟩

/-- Transport context whose blocking read cycle fails. -/
def conn_read_fail : Connection Nat :=
  ⟨[], none, Except.error (WaylandError.io (Errno.other 11))⟩

/-- Transport context whose blocking read cycle delivers one entry. -/
def conn_read_one : Connection Nat := ⟨[], none, Except.ok [ok_event]⟩

/-- Roundtrip wait step: two events dispatched, barrier not yet fired. -/
def step_ok2 : SyncStep := ⟨Except.ok 2, false⟩

/-- Roundtrip wait step: three events dispatched, barrier fired. -/
def step_done3 : SyncStep := ⟨Except.ok 3, true⟩

/-- Producer delivery carrying `msg_plain`. -/
def sreq_a : SendReq Nat :=
  ⟨fun _ n _ => PanicOr.value (Except.ok (n + 1)), msg_plain, ⟨⟨3⟩⟩⟩

/-- Producer delivery carrying `msg_new`. -/
def sreq_b : SendReq Nat :=
  ⟨fun _ n _ => PanicOr.value (Except.ok (n + 2)), msg_new, ⟨⟨3⟩⟩⟩

/-!
Helper lemmas about the drain loop, the roundtrip wait loop and the poll
loop, shared by the claim theorems below.
-/

/-- A successful drain pass consumed the whole buffer: the count is the
buffer length (on top of the running count), nothing remains, and the
processed trace is the buffer's messages in order. -/
theorem drain_loop_ok_spec {State : Type} (buffer : List (QueueEvent State)) :
    ∀ (st : State) (k : Nat) (st' : State) (n : Nat)
      (rem : List (QueueEvent State)) (tr : List Message),
      drain_loop buffer st k = PanicOr.value ⟨Except.ok (st', n), rem, tr⟩ →
      n = k + buffer.length ∧ rem = [] ∧ tr = buffer.map (fun e => e.msg) := by
  induction buffer with
  | nil =>
    intro st k st' n rem tr h
    simp only [drain_loop] at h
    simp only [PanicOr.value.injEq, DrainOut.mk.injEq, Except.ok.injEq,
      Prod.mk.injEq] at h
    obtain ⟨⟨_, hn⟩, hrem, htr⟩ := h
    simp [hn.symm, hrem.symm, htr.symm]
  | cons e rest ih =>
    intro st k st' n rem tr h
    simp only [drain_loop] at h
    split at h
    · exact absurd h (by simp)
    · simp at h
    · rename_i st1 hcb
      split at h
      · exact absurd h (by simp)
      · rename_i out hrec
        simp only [PanicOr.value.injEq, DrainOut.mk.injEq] at h
        obtain ⟨hres, hrem, htr⟩ := h
        obtain ⟨hn, hrem2, htr2⟩ :=
          ih st1 (k + 1) st' n out.remaining out.processed
            (by rw [hrec, ← hres])
        refine ⟨?_, ?_, ?_⟩
        · simp only [List.length_cons]
          omega
        · rw [← hrem]; exact hrem2
        · rw [← htr, htr2]; simp

/-- Prefixing a drain by entries that all succeed shifts the failure
behaviour: if `pre` drains cleanly and the next entry's callback fails,
the combined pass returns that error, leaves exactly the entries after
the failing one, and reports the prefix's trace. -/
theorem drain_loop_fail_at {State : Type} (pre : List (QueueEvent State)) :
    ∀ (st : State) (k : Nat) (st1 : State) (n1 : Nat) (tr1 : List Message)
      (e : QueueEvent State) (post : List (QueueEvent State)) (err : DispatchError),
      drain_loop pre st k = PanicOr.value ⟨Except.ok (st1, n1), [], tr1⟩ →
      e.cb e.msg st1 e.odata = PanicOr.value (Except.error err) →
      drain_loop (pre ++ e :: post) st k =
        PanicOr.value ⟨Except.error err, post, tr1⟩ := by
  induction pre with
  | nil =>
    intro st k st1 n1 tr1 e post err h hcb
    simp only [drain_loop] at h
    simp only [PanicOr.value.injEq, DrainOut.mk.injEq, Except.ok.injEq,
      Prod.mk.injEq] at h
    obtain ⟨⟨hst, -⟩, -, htr⟩ := h
    subst hst
    simp only [List.nil_append, drain_loop, hcb]
    rw [← htr]
  | cons f rest ih =>
    intro st k st1 n1 tr1 e post err h hcb
    simp only [drain_loop] at h
    split at h
    · exact absurd h (by simp)
    · simp at h
    · rename_i stf hcbf
      split at h
      · exact absurd h (by simp)
      · rename_i out hrec
        simp only [PanicOr.value.injEq, DrainOut.mk.injEq] at h
        obtain ⟨hres, hrem, htr⟩ := h
        have hcall : drain_loop rest stf (k + 1) =
            PanicOr.value ⟨Except.ok (st1, n1), [], out.processed⟩ := by
          rw [hrec, ← hres, ← hrem]
        have hrest := ih stf (k + 1) st1 n1 out.processed e post err hcall hcb
        rw [List.cons_append]
        simp only [drain_loop, hcbf, List.append_eq, hrest]
        rw [htr]

/-- Running the roundtrip wait loop over steps that all succeed without
firing the barrier, followed by a step that succeeds and fires it: the
loop returns the accumulated count and made one call per consumed step. -/
theorem roundtrip_loop_completes (pre : List SyncStep) :
    ∀ (acc calls : Nat) (s : SyncStep) (rest : List SyncStep) (m : Nat),
      (∀ x ∈ pre, x.setsDone = false ∧ ∃ k, x.result = Except.ok k) →
      s.setsDone = true → s.result = Except.ok m →
      roundtrip_loop (pre ++ s :: rest) acc calls =
        (some (Except.ok (acc + (pre.map stepCount).sum + m)),
          calls + pre.length + 1) := by
  induction pre with
  | nil =>
    intro acc calls s rest m _ hdone hres
    simp [roundtrip_loop, hres, hdone]
  | cons x pre' ih =>
    intro acc calls s rest m hpre hdone hres
    obtain ⟨hx, kx, hkx⟩ := hpre x (List.mem_cons_self x pre')
    have hih := ih (acc + kx) (calls + 1) s rest m
      (fun y hy => hpre y (List.mem_cons_of_mem x hy)) hdone hres
    have hsc : stepCount x = kx := by simp [stepCount, hkx]
    rw [List.cons_append]
    simp only [roundtrip_loop, hkx, hx]
    rw [if_neg (by simp), hih]
    simp only [List.map_cons, List.sum_cons, List.length_cons, hsc,
      Prod.mk.injEq, Option.some.injEq, Except.ok.injEq]
    constructor <;> omega

/-- Running the roundtrip wait loop over steps that all succeed without
ever firing the barrier exhausts the script with the loop still
spinning. -/
theorem roundtrip_loop_diverges (script : List SyncStep) :
    ∀ (acc calls : Nat),
      (∀ x ∈ script, x.setsDone = false ∧ ∃ k, x.result = Except.ok k) →
      roundtrip_loop script acc calls = (none, calls + script.length) := by
  induction script with
  | nil => intro acc calls _; simp [roundtrip_loop]
  | cons x rest ih =>
    intro acc calls h
    obtain ⟨hx, kx, hkx⟩ := h x (List.mem_cons_self x rest)
    simp only [roundtrip_loop, hkx, hx]
    rw [if_neg (by simp),
      ih (acc + kx) (calls + 1) (fun y hy => h y (List.mem_cons_of_mem x hy))]
    simp only [List.length_cons, Prod.mk.injEq, true_and]
    omega

/-- When at least one sender is alive and no buffered callback panics,
the poll loop either suspends or surfaces a dispatch error — it never
reaches the end-of-stream branch and never produces a success value. -/
theorem poll_loop_spec {State : Type} (l : List (QueueEvent State)) :
    ∀ (senders : Nat) (st : State), 0 < senders →
      (∀ e ∈ l, ∀ (m : Message) (s : State) (o : ObjData),
        ∃ r, e.cb m s o = PanicOr.value r) →
      ∃ p st', poll_loop l senders st = PanicOr.value (p, st') ∧
        (p = Poll.pending ∨ ∃ err, p = Poll.ready (Except.error err)) := by
  induction l with
  | nil =>
    intro senders st hs _
    exact ⟨Poll.pending, st, by simp [poll_loop, hs], Or.inl rfl⟩
  | cons e rest ih =>
    intro senders st hs hcb
    obtain ⟨r, hr⟩ := hcb e (List.mem_cons_self e rest) e.msg st e.odata
    cases r with
    | error err =>
      exact ⟨Poll.ready (Except.error err), st, by simp [poll_loop, hr],
        Or.inr ⟨err, rfl⟩⟩
    | ok st' =>
      obtain ⟨p, st'', hpoll, hp⟩ :=
        ih senders st' hs (fun y hy => hcb y (List.mem_cons_of_mem e hy))
      exact ⟨p, st'', by simp [poll_loop, hr, hpoll], hp⟩

/-!
Claim theorems.
-/

/-- C1: for a raw event hitting a capability object minted by `make_data`
on a live queue: with no new-object-id argument, or a null first one, no
child is created, the event is enqueued, and `None` is returned; with a
non-null first new-object-id argument (on an interface with a
child-creating event and a registered child-creation function), the
child-creation function for the opcode runs, the event is enqueued, and
the child is returned — the action trace shows the child-creation
decision strictly before the enqueue. -/
theorem C1_adapter_child_decision_and_enqueue {State : Type}
    (b : DispatchBinding State) (ch : ChannelState State) (msg : Message)
    (halive : ch.receiverAlive = true) :
    (find_first_new_id msg.args = none →
      QueueProxyData.event (make_data b) ch msg =
        PanicOr.value ⟨{ ch with buffer :=
            ch.buffer ++ [⟨(make_data b).senderFunc, msg, (make_data b).udata⟩] },
          [AdapterAction.enqueue msg.opcode], none⟩) ∧
    (∀ id, find_first_new_id msg.args = some id → id.is_null = true →
      QueueProxyData.event (make_data b) ch msg =
        PanicOr.value ⟨{ ch with buffer :=
            ch.buffer ++ [⟨(make_data b).senderFunc, msg, (make_data b).udata⟩] },
          [AdapterAction.enqueue msg.opcode], none⟩) ∧
    (∀ id child, find_first_new_id msg.args = some id → id.is_null = false →
      has_creating_event b.iface = true →
      b.event_created_child msg.opcode = PanicOr.value child →
      QueueProxyData.event (make_data b) ch msg =
        PanicOr.value ⟨{ ch with buffer :=
            ch.buffer ++ [⟨(make_data b).senderFunc, msg, (make_data b).udata⟩] },
          [AdapterAction.createChild msg.opcode, AdapterAction.enqueue msg.opcode],
          some child⟩) := by
  refine ⟨?_, ?_, ?_⟩
  · intro hfind
    cases hce : has_creating_event b.iface <;>
      simp [QueueProxyData.event, make_data, odata_maker_creating, hfind, hce,
        QueueSender.send, halive]
  · intro id hfind hnull
    cases hce : has_creating_event b.iface <;>
      simp [QueueProxyData.event, make_data, odata_maker_creating, hfind, hnull,
        hce, QueueSender.send, halive]
  · intro id child hfind hnull hce hecc
    simp [QueueProxyData.event, make_data, odata_maker_creating, hfind, hnull,
      hce, hecc, QueueSender.send, halive]

/-- C1 witness: the three cases evaluated at concrete inputs over
`State := Nat`, with a registered child-creation function. -/
theorem C1_adapter_child_decision_and_enqueue_witness :
    (QueueProxyData.event (make_data b_registered) ch_alive msg_plain =
      PanicOr.value ⟨{ ch_alive with buffer :=
          [⟨(make_data b_registered).senderFunc, msg_plain, (make_data b_registered).udata⟩] },
        [AdapterAction.enqueue msg_plain.opcode], none⟩) ∧
    (QueueProxyData.event (make_data b_registered) ch_alive msg_null_new =
      PanicOr.value ⟨{ ch_alive with buffer :=
          [⟨(make_data b_registered).senderFunc, msg_null_new, (make_data b_registered).udata⟩] },
        [AdapterAction.enqueue msg_null_new.opcode], none⟩) ∧
    (QueueProxyData.event (make_data b_registered) ch_alive msg_new =
      PanicOr.value ⟨{ ch_alive with buffer :=
          [⟨(make_data b_registered).senderFunc, msg_new, (make_data b_registered).udata⟩] },
        [AdapterAction.createChild msg_new.opcode, AdapterAction.enqueue msg_new.opcode],
        some child_obj⟩) :=
  ⟨(C1_adapter_child_decision_and_enqueue b_registered ch_alive msg_plain rfl).1 rfl,
    (C1_adapter_child_decision_and_enqueue b_registered ch_alive msg_null_new rfl).2.1
      ⟨0⟩ rfl rfl,
    (C1_adapter_child_decision_and_enqueue b_registered ch_alive msg_new rfl).2.2
      ⟨5⟩ child_obj rfl rfl rfl rfl⟩

/-- C2: an object-creating event (non-null new-object-id argument) whose
opcode has no registered child-creation function — the binding's
`event_created_child` is the panicking default for that opcode — makes
event processing terminate the process with the diagnostic naming the
interface and the opcode; the adapter neither enqueues the event nor
returns a recoverable error. -/
theorem C2_missing_child_binding_fatal {State : Type}
    (b : DispatchBinding State) (ch : ChannelState State) (msg : Message)
    (id : ObjectId)
    (hce : has_creating_event b.iface = true)
    (hfind : find_first_new_id msg.args = some id)
    (hnull : id.is_null = false)
    (hecc : b.event_created_child msg.opcode =
      PanicOr.panic (missing_child_diag b.iface msg.opcode)) :
    QueueProxyData.event (make_data b) ch msg =
      PanicOr.panic (missing_child_diag b.iface msg.opcode) := by
  simp [QueueProxyData.event, make_data, odata_maker_creating, hfind, hnull,
    hce, hecc]

/-- C2 witness: the default binding aborts on the concrete
wl-data-device-like interface with the diagnostic naming opcode 0 and the
interface. -/
theorem C2_missing_child_binding_fatal_witness :
    QueueProxyData.event (make_data b_default) ch_alive msg_new =
      PanicOr.panic
        "Missing event_created_child specialization for event opcode 0 of wl_data_device" :=
  C2_missing_child_binding_fatal b_default ch_alive msg_new ⟨5⟩ rfl rfl rfl rfl

/-- C6: sending through a surviving handle is total and never propagates
an error. If the queue's consumer has been dropped the event is silently
discarded and the log message is emitted; in every other state the event
is appended at the back of the buffer. -/
theorem C6_silent_drop_on_dead_queue {State : Type} (func : QueueCallback State)
    (ch : ChannelState State) (msg : Message) (odata : ObjData) :
    (ch.receiverAlive = false →
      QueueSender.send func ch msg odata =
        (ch, [AdapterAction.logDrop
          "Event received for EventQueue after it was dropped."])) ∧
    (ch.receiverAlive = true →
      QueueSender.send func ch msg odata =
        ({ ch with buffer := ch.buffer ++ [⟨func, msg, odata⟩] },
          [AdapterAction.enqueue msg.opcode])) := by
  constructor
  · intro h; simp [QueueSender.send, h]
  · intro h; simp [QueueSender.send, h]

/-- C6 witness: both conjuncts evaluated on concrete channels. -/
theorem C6_silent_drop_on_dead_queue_witness :
    (QueueSender.send ok_event.cb ch_dead msg_plain ok_event.odata =
      (ch_dead, [AdapterAction.logDrop
        "Event received for EventQueue after it was dropped."])) ∧
    (QueueSender.send ok_event.cb ch_alive msg_plain ok_event.odata =
      ({ ch_alive with buffer := [⟨ok_event.cb, msg_plain, ok_event.odata⟩] },
        [AdapterAction.enqueue msg_plain.opcode])) :=
  ⟨(C6_silent_drop_on_dead_queue ok_event.cb ch_dead msg_plain ok_event.odata).1 rfl,
    (C6_silent_drop_on_dead_queue ok_event.cb ch_alive msg_plain ok_event.odata).2 rfl⟩

/-- C7: for any object minted by `make_data`, the dispatch-time downcast
of the erased user data embedded in the minted callback always succeeds on
the minted object's own data: the callback never reaches its panic branch,
returning either the parse error or the handler result. -/
theorem C7_downcast_never_fails {State : Type} (b : DispatchBinding State)
    (msg : Message) (st : State) :
    ∃ r, (make_data b).senderFunc msg st (make_data b).udata = PanicOr.value r := by
  cases hp : b.parse_event msg with
  | error e =>
    exact ⟨Except.error e, by simp [make_data, queue_callback, hp]⟩
  | ok ev =>
    exact ⟨Except.ok (b.handler st ev),
      by simp [make_data, queue_callback, hp, downcast_ref]⟩

/-- C3: `dispatch_pending` is a total (non-blocking) drain pass. When every
buffered entry (including those delivered by the opportunistic inner-queue
step) dispatches successfully it returns their count with the buffer
emptied; at the first failing entry it returns that error with the
already-dispatched entries and the failing entry removed and all later
entries still queued. -/
theorem C3_dispatch_pending_drain {State : Type} :
    (∀ (conn : Connection State) (buffer : List (QueueEvent State))
      (st st' : State) (n : Nat) (rem : List (QueueEvent State)) (tr : List Message),
      dispatch_pending conn buffer st = PanicOr.value ⟨Except.ok (st', n), rem, tr⟩ →
      n = buffer.length + conn.innerQueue.length ∧ rem = []) ∧
    (∀ (conn : Connection State) (buffer : List (QueueEvent State))
      (st st1 : State) (pre : List (QueueEvent State)) (e : QueueEvent State)
      (post : List (QueueEvent State)) (n1 : Nat) (tr1 : List Message)
      (err : DispatchError),
      buffer ++ conn.innerQueue = pre ++ e :: post →
      drain_loop pre st 0 = PanicOr.value ⟨Except.ok (st1, n1), [], tr1⟩ →
      e.cb e.msg st1 e.odata = PanicOr.value (Except.error err) →
      dispatch_pending conn buffer st =
        PanicOr.value ⟨Except.error err, post, tr1⟩) := by
  constructor
  · intro conn buffer st st' n rem tr h
    obtain ⟨hn, hrem, -⟩ :=
      drain_loop_ok_spec (buffer ++ conn.innerQueue) st 0 st' n rem tr h
    exact ⟨by simpa [List.length_append] using hn, hrem⟩
  · intro conn buffer st st1 pre e post n1 tr1 err hsplit hpre hcb
    have hfail := drain_loop_fail_at pre st 0 st1 n1 tr1 e post err hpre hcb
    show drain_loop (buffer ++ conn.innerQueue) st 0 = _
    rw [hsplit]
    exact hfail

/-- C3 witness: a clean drain of two entries counts both and empties the
queue; a drain failing at the second of three entries surfaces the error,
consumes the failing entry and keeps the third queued. -/
theorem C3_dispatch_pending_drain_witness :
    ((2 : Nat) = [ok_event, ok_event].length + conn_idle.innerQueue.length ∧
      ([] : List (QueueEvent Nat)) = []) ∧
    dispatch_pending conn_idle [ok_event, err_event, ok_event] 0 =
      PanicOr.value ⟨Except.error (DispatchError.badMessage msg_null_new "wl_data_device"),
        [ok_event], [msg_plain]⟩ :=
  ⟨(C3_dispatch_pending_drain.1 conn_idle [ok_event, ok_event] 0 2 2 []
      [msg_plain, msg_plain] rfl),
    (C3_dispatch_pending_drain.2 conn_idle [ok_event, err_event, ok_event] 0 1
      [ok_event] err_event [ok_event] 1 [msg_plain]
      (DispatchError.badMessage msg_null_new "wl_data_device") rfl rfl rfl)⟩

/-- C4 counterexample: the claim says `blocking_dispatch` "fails only if
the blocking read itself fails", but with one entry whose callback fails
recoverably and a transport whose blocking read cycle would succeed,
`blocking_dispatch` returns the dispatch error without ever performing the
read (`didRead = false`). -/
theorem C4_blocking_dispatch_counterexample :
    blocking_dispatch conn_idle [err_event] (0 : Nat) =
      PanicOr.value ⟨Except.error (DispatchError.badMessage msg_null_new "wl_data_device"),
        [], [], false⟩ ∧
    conn_idle.readResult = Except.ok [] :=
  ⟨rfl, rfl⟩

/-- C4 amended: `blocking_dispatch` first drains; a positive first drain
(or a first-drain failure) returns immediately without touching the
transport; exactly when the first drain succeeds with zero events it
performs the flush-and-blocking-read cycle and drains again; it fails if
the blocking read fails or if either drain surfaces a dispatch error. -/
theorem C4_blocking_dispatch_amended {State : Type} :
    (∀ (conn : Connection State) (buffer : List (QueueEvent State))
      (st st1 : State) (n : Nat) (rem : List (QueueEvent State)) (tr : List Message),
      0 < n →
      dispatching_impl conn buffer st = PanicOr.value ⟨Except.ok (st1, n), rem, tr⟩ →
      blocking_dispatch conn buffer st =
        PanicOr.value ⟨Except.ok (st1, n), rem, tr, false⟩) ∧
    (∀ (conn : Connection State) (buffer : List (QueueEvent State))
      (st : State) (err : DispatchError) (rem : List (QueueEvent State)) (tr : List Message),
      dispatching_impl conn buffer st = PanicOr.value ⟨Except.error err, rem, tr⟩ →
      blocking_dispatch conn buffer st =
        PanicOr.value ⟨Except.error err, rem, tr, false⟩) ∧
    (∀ (conn : Connection State) (buffer : List (QueueEvent State))
      (st st1 : State) (rem : List (QueueEvent State)) (tr : List Message)
      (e : WaylandError),
      dispatching_impl conn buffer st = PanicOr.value ⟨Except.ok (st1, 0), rem, tr⟩ →
      conn.readResult = Except.error e →
      blocking_dispatch conn buffer st =
        PanicOr.value ⟨Except.error (DispatchError.backend e), rem, tr, true⟩) ∧
    (∀ (conn : Connection State) (buffer : List (QueueEvent State))
      (st st1 : State) (rem : List (QueueEvent State)) (tr : List Message)
      (newEntries : List (QueueEvent State)) (r2 : DrainOut State),
      dispatching_impl conn buffer st = PanicOr.value ⟨Except.ok (st1, 0), rem, tr⟩ →
      conn.readResult = Except.ok newEntries →
      dispatching_impl { conn with innerQueue := [] } (rem ++ newEntries) st1 =
        PanicOr.value r2 →
      blocking_dispatch conn buffer st =
        PanicOr.value ⟨r2.result, r2.remaining, tr ++ r2.processed, true⟩) := by
  refine ⟨?_, ?_, ?_, ?_⟩
  · intro conn buffer st st1 n rem tr hn h
    simp [blocking_dispatch, h, hn]
  · intro conn buffer st err rem tr h
    simp [blocking_dispatch, h]
  · intro conn buffer st st1 rem tr e h hread
    simp [blocking_dispatch, h, hread]
  · intro conn buffer st st1 rem tr newEntries r2 h hread h2
    rw [hread] at h2
    simp [blocking_dispatch, h, hread, h2]

/-- C4 witness: the four branches evaluated on concrete transports — a
positive first drain, a failing first drain, a failing blocking read, and
a successful read followed by a second drain. -/
theorem C4_blocking_dispatch_amended_witness :
    blocking_dispatch conn_idle [ok_event] (0 : Nat) =
      PanicOr.value ⟨Except.ok (1, 1), [], [msg_plain], false⟩ ∧
    blocking_dispatch conn_read_one [err_event] (0 : Nat) =
      PanicOr.value ⟨Except.error (DispatchError.badMessage msg_null_new "wl_data_device"),
        [], [], false⟩ ∧
    blocking_dispatch conn_read_fail ([] : List (QueueEvent Nat)) 0 =
      PanicOr.value ⟨Except.error (DispatchError.backend (WaylandError.io (Errno.other 11))),
        [], [], true⟩ ∧
    blocking_dispatch conn_read_one ([] : List (QueueEvent Nat)) 0 =
      PanicOr.value ⟨Except.ok (1, 1), [], [msg_plain], true⟩ :=
  ⟨C4_blocking_dispatch_amended.1 conn_idle [ok_event] 0 1 1 [] [msg_plain]
      (by decide) rfl,
    C4_blocking_dispatch_amended.2.1 conn_read_one [err_event] 0
      (DispatchError.badMessage msg_null_new "wl_data_device") [] [] rfl,
    C4_blocking_dispatch_amended.2.2.1 conn_read_fail [] 0 0 [] []
      (WaylandError.io (Errno.other 11)) rfl rfl,
    C4_blocking_dispatch_amended.2.2.2 conn_read_one [] 0 0 [] [] [ok_event]
      ⟨Except.ok (1, 1), [], [msg_plain]⟩ rfl rfl rfl⟩

/-- C5: `roundtrip` sends exactly one synchronization request and then
repeatedly calls `blocking_dispatch`; once a call fires the barrier (all
calls up to it succeeding) it returns the total count dispatched over all
those calls, having made exactly one call per consumed step; while the
barrier never fires and no call errors, it does not return. -/
theorem C5_roundtrip_barrier :
    (∀ (pre : List SyncStep) (s : SyncStep) (rest : List SyncStep) (m : Nat),
      (∀ x ∈ pre, x.setsDone = false ∧ ∃ k, x.result = Except.ok k) →
      s.setsDone = true → s.result = Except.ok m →
      roundtrip (Except.ok ()) (pre ++ s :: rest) =
        ⟨some (Except.ok ((pre.map stepCount).sum + m)), pre.length + 1, 1⟩) ∧
    (∀ script : List SyncStep,
      (∀ x ∈ script, x.setsDone = false ∧ ∃ k, x.result = Except.ok k) →
      roundtrip (Except.ok ()) script = ⟨none, script.length, 1⟩) := by
  constructor
  · intro pre s rest m hpre hdone hres
    have h := roundtrip_loop_completes pre 0 0 s rest m hpre hdone hres
    simp [roundtrip, h]
  · intro script hscript
    have h := roundtrip_loop_diverges script 0 0 hscript
    simp [roundtrip, h]

/-- C5 witness: a roundtrip whose second `blocking_dispatch` call fires the
barrier returns the sum of both calls' counts after two calls; a script
that never fires the barrier leaves the loop spinning. -/
theorem C5_roundtrip_barrier_witness :
    roundtrip (Except.ok ()) [step_ok2, step_done3] =
      ⟨some (Except.ok 5), 2, 1⟩ ∧
    roundtrip (Except.ok ()) [step_ok2] = ⟨none, 1, 1⟩ :=
  ⟨C5_roundtrip_barrier.1 [step_ok2] step_done3 [] 3
      (by intro x hx
          simp only [List.mem_singleton] at hx
          subst hx
          exact ⟨rfl, 2, rfl⟩) rfl rfl,
    C5_roundtrip_barrier.2 [step_ok2]
      (by intro x hx
          simp only [List.mem_singleton] at hx
          subst hx
          exact ⟨rfl, 2, rfl⟩)⟩

/-- C8: within one queue, delivery is FIFO — any sequence of sends through
a live channel appends the entries in serialization order, and a
successful drain processes exactly the buffered messages in that order. -/
theorem C8_fifo_order {State : Type} (ds : List (SendReq State))
    (ch : ChannelState State) (st : State) (halive : ch.receiverAlive = true) :
    (sendAll ds ch).buffer = ch.buffer ++ ds.map SendReq.toEvent ∧
    (∀ (st' : State) (n : Nat) (rem : List (QueueEvent State)) (tr : List Message),
      drain_loop (sendAll ds ch).buffer st 0 =
        PanicOr.value ⟨Except.ok (st', n), rem, tr⟩ →
      tr = ch.buffer.map (fun e => e.msg) ++ ds.map (fun d => d.msg)) := by
  have hbuf : sendAll ds ch = ⟨ch.buffer ++ ds.map SendReq.toEvent, true⟩ := by
    induction ds generalizing ch with
    | nil =>
      cases ch with
      | mk buf alive => simp_all [sendAll]
    | cons d rest ih =>
      simp only [sendAll, QueueSender.send, halive, if_true]
      rw [ih _ rfl]
      simp [SendReq.toEvent]
  constructor
  · rw [hbuf]
  · intro st' n rem tr h
    obtain ⟨-, -, htr⟩ := drain_loop_ok_spec _ st 0 st' n rem tr h
    rw [htr, hbuf]
    simp [List.map_map, SendReq.toEvent, Function.comp]

/-- C8 witness: two sends buffer in order and a clean drain reports their
messages in exactly that order. -/
theorem C8_fifo_order_witness :
    (sendAll [sreq_a, sreq_b] ch_alive).buffer =
      [sreq_a.toEvent, sreq_b.toEvent] ∧
    ([msg_plain, msg_new] : List Message) =
      ch_alive.buffer.map (fun e => e.msg) ++
        List.map (fun d => d.msg) [sreq_a, sreq_b] :=
  ⟨(C8_fifo_order [sreq_a, sreq_b] ch_alive 0 rfl).1,
    (C8_fifo_order [sreq_a, sreq_b] ch_alive 0 rfl).2 3 2 []
      [msg_plain, msg_new] rfl⟩

/-- C9: the cooperative poll never signals successful completion or end of
stream. While the queue holds its own live sender and no buffered callback
panics, every invocation either returns `Pending` (empty buffer) or
surfaces a dispatch error; a ready-with-success return is impossible, and
the end-of-stream branch is unreachable. -/
theorem C9_poll_never_completes {State : Type} (conn : Connection State)
    (buffer : List (QueueEvent State)) (senders : Nat) (st : State)
    (hs : 0 < senders)
    (hcb : ∀ e ∈ buffer ++ conn.innerQueue, ∀ (m : Message) (s : State) (o : ObjData),
      ∃ r, e.cb m s o = PanicOr.value r) :
    ∃ p st', poll_dispatch_pending conn buffer senders st = PanicOr.value (p, st') ∧
      (p = Poll.pending ∨ ∃ err, p = Poll.ready (Except.error err)) := by
  cases hinner : conn.innerError with
  | some e =>
    exact ⟨Poll.ready (Except.error (DispatchError.backend e)), st,
      by simp [poll_dispatch_pending, hinner],
      Or.inr ⟨DispatchError.backend e, rfl⟩⟩
  | none =>
    obtain ⟨p, st', hp, hcase⟩ :=
      poll_loop_spec (buffer ++ conn.innerQueue) senders st hs hcb
    exact ⟨p, st', by simp [poll_dispatch_pending, hinner, hp], hcase⟩

/-- C9 witness: an empty queue with its own sender alive polls to
`Pending` (in particular, not to a success and not to a panic). -/
theorem C9_poll_never_completes_witness :
    ∃ p st', poll_dispatch_pending conn_idle ([] : List (QueueEvent Nat)) 1 0 =
      PanicOr.value (p, st') ∧
      (p = Poll.pending ∨ ∃ err, p = Poll.ready (Except.error err)) :=
  C9_poll_never_completes conn_idle [] 1 0 (by decide)
    (by intro e he; exact absurd he (by simp [conn_idle]))

/-- C10: when sending the initial synchronization request fails,
`roundtrip` returns a broken-pipe transport error regardless of the actual
failure cause, makes no `blocking_dispatch` call and dispatches no
events. -/
theorem C10_roundtrip_send_error_epipe (cause : SendError) (script : List SyncStep) :
    roundtrip (Except.error cause) script =
      ⟨some (Except.error (DispatchError.backend (WaylandError.io Errno.EPIPE))), 0, 1⟩ :=
  rfl

